import Mathlib

/- Formal model of the DataGraph MCP server (src/unnamed/part_001, with the
   query_city_data variant in src/index.js).  The server is a protocol adapter:
   a static registry of tools / prompts / resources, plus dispatch handlers that
   validate arguments, perform one outbound HTTP call and republish the JSON
   response.  JavaScript values flowing through the handlers are modelled by an
   inductive JSON type; JSON numbers are modelled as integers (every number in
   the claims and registries is an integer).  An absent object key or the JS
   value undefined is modelled as Option.none. -/

namespace Datagraph

/-- JSON values, as produced by response.json() and carried in tool arguments.
    Numbers are modelled as integers. -/
inductive Json where
  | null : Json
  | bool : Bool → Json
  | num : Int → Json
  | str : String → Json
  | arr : List Json → Json
  | obj : List (String × Json) → Json

/-- An argument mapping: the JS object request.params.arguments.  A key that is
    absent (or whose value is undefined) simply does not occur in the list. -/
def Args := List (String × Json)

/-- JS object property lookup.  With duplicate keys the later entry wins, as in
    a JS object literal and in JSON.parse. -/
def lookupArg : Args → String → Option Json
  | [], _ => none
  | (k, v) :: rest, key =>
      match lookupArg rest key with
      | some w => some w
      | none => if k = key then some v else none

/-- JS truthiness of a defined value: null, false, 0 and "" are falsy; every
    array and object is truthy. -/
def jsTruthy : Json → Bool
  | .null => false
  | .bool b => b
  | .num n => !(n = 0)
  | .str s => !(s = "")
  | .arr _ => true
  | .obj _ => true

/-- JS truthiness of a possibly-undefined value (undefined is falsy). -/
def argTruthy : Option Json → Bool
  | none => false
  | some j => jsTruthy j

/-- Property access v.error on a defined JS value other than null: an object
    yields the field, every other value yields undefined. -/
def objField : Json → String → Option Json
  | .obj fs, k => lookupArg fs k
  | _, _ => none

mutual

/-- JS String(value) coercion, as used by template literals such as
    a backtick template containing a placeholder for the locality value. -/
def jsToString : Json → String
  | .null => "null"
  | .bool b => if b then "true" else "false"
  | .num n => toString n
  | .str s => s
  | .arr l => jsArrString l
  | .obj _ => "[object Object]"

/-- JS Array.prototype.toString: elements joined by commas, with null and
    undefined elements rendered as the empty string. -/
def jsArrString : List Json → String
  | [] => ""
  | [.null] => ""
  | [x] => jsToString x
  | .null :: xs => "," ++ jsArrString xs
  | x :: xs => jsToString x ++ "," ++ jsArrString xs

end

/-- Template interpolation of a possibly-undefined value. -/
def jsTemplate : Option Json → String
  | none => "undefined"
  | some j => jsToString j

/-- Lower-case hexadecimal digit, for JSON string escapes. -/
def hexLower (n : Nat) : Char :=
  if n < 10 then Char.ofNat (48 + n) else Char.ofNat (87 + n)

/-- Upper-case hexadecimal digit, for percent-encoding. -/
def hexUpper (n : Nat) : Char :=
  if n < 10 then Char.ofNat (48 + n) else Char.ofNat (55 + n)

/-- JSON.stringify escaping of one character inside a string literal. -/
def escapeChar (c : Char) : String :=
  if c = '"' then "\\\""
  else if c = '\\' then "\\\\"
  else if c = '\n' then "\\n"
  else if c = '\r' then "\\r"
  else if c = '\t' then "\\t"
  else if c = '\x08' then "\\b"
  else if c = '\x0c' then "\\f"
  else if c.toNat < 32 then
    "\\u00" ++ String.singleton (hexLower (c.toNat / 16)) ++
      String.singleton (hexLower (c.toNat % 16))
  else String.singleton c

/-- A JSON string literal: quotes around the escaped characters. -/
def jsonQuote (s : String) : String :=
  "\"" ++ String.join (s.data.map escapeChar) ++ "\""

/-- n spaces, the indentation used by JSON.stringify with a gap of 2. -/
def spaces (n : Nat) : String :=
  String.mk (List.replicate n ' ')

mutual

/-- JSON.stringify(v, null, 2) at nesting indentation ind: the pretty-printed
    serialization with 2-space indentation used by every success path. -/
def jstr : Nat → Json → String
  | _, .null => "null"
  | _, .bool b => if b then "true" else "false"
  | _, .num n => toString n
  | _, .str s => jsonQuote s
  | _, .arr [] => "[]"
  | ind, .arr (x :: xs) =>
      "[\n" ++ jstrItems (ind + 2) (x :: xs) ++ "\n" ++ spaces ind ++ "]"
  | _, .obj [] => "\x7b\x7d"
  | ind, .obj (p :: ps) =>
      "\x7b\n" ++ jstrFields (ind + 2) (p :: ps) ++ "\n" ++ spaces ind ++ "\x7d"

/-- Array elements, one per line, comma-separated. -/
def jstrItems : Nat → List Json → String
  | _, [] => ""
  | ind, [x] => spaces ind ++ jstr ind x
  | ind, x :: xs => spaces ind ++ jstr ind x ++ ",\n" ++ jstrItems ind xs

/-- Object fields, one per line, comma-separated. -/
def jstrFields : Nat → List (String × Json) → String
  | _, [] => ""
  | ind, [(k, v)] => spaces ind ++ jsonQuote k ++ ": " ++ jstr ind v
  | ind, (k, v) :: ps =>
      spaces ind ++ jsonQuote k ++ ": " ++ jstr ind v ++ ",\n" ++ jstrFields ind ps

end

/-- JSON.stringify(v, null, 2): top-level pretty printing. -/
def stringifyPretty (j : Json) : String := jstr 0 j

/-- UTF-8 bytes of a code point, for percent-encoding. -/
def utf8Bytes (n : Nat) : List Nat :=
  if n < 128 then [n]
  else if n < 2048 then [192 + n / 64, 128 + n % 64]
  else if n < 65536 then [224 + n / 4096, 128 + (n / 64) % 64, 128 + n % 64]
  else [240 + n / 262144, 128 + (n / 4096) % 64, 128 + (n / 64) % 64, 128 + n % 64]

/-- Characters left unescaped by JS encodeURIComponent. -/
def uriUnreserved (c : Char) : Bool :=
  c.isAlphanum || c = '-' || c = '_' || c = '.' || c = '!' || c = '~' ||
    c = '*' || c = '\x27' || c = '(' || c = ')'

/-- Percent-encoding of one byte, upper-case hex as in JS. -/
def percentByte (n : Nat) : String :=
  "%" ++ String.singleton (hexUpper (n / 16)) ++ String.singleton (hexUpper (n % 16))

/-- JS encodeURIComponent, used when list_datasets appends a locality filter. -/
def encodeURIComponent (s : String) : String :=
  String.join (s.data.map fun c =>
    if uriUnreserved c then String.singleton c
    else String.join ((utf8Bytes c.toNat).map percentByte))

/-- Startup configuration: DATAGRAPH_API_KEY and DATAGRAPH_API_URL, read once
    from the environment and immutable afterwards. -/
structure Config where
  apiKey : String
  apiUrl : String
deriving DecidableEq

/-- The requestBody object built by the query_locality_data handler.  A none
    field is a key that is absent from the serialized body: query and category
    hold the (possibly undefined) argument values, and JSON.stringify drops
    undefined-valued keys; cypher_query and cypher_params are only assigned
    inside the truthiness guards. -/
structure QueryRequestBody where
  query : Option Json
  category : Option Json
  limit : Json
  cypher_query : Option Json
  cypher_params : Option Json

/-- One outbound HTTP request built by a handler.  The JS code serializes the
    query body with JSON.stringify(requestBody); here the body is kept
    structurally, which already reflects the dropping of undefined-valued keys
    performed by that serialization. -/
structure HttpRequest where
  method : String
  url : String
  headers : List (String × String)
  body : Option QueryRequestBody

/-- The settled outcome of fetch plus response.json(): ok mirrors response.ok
    (status in the 2xx range), jsonBody is some b when the body parses as JSON b
    and none when response.json() would reject. -/
structure HttpResponse where
  ok : Bool
  jsonBody : Option Json

/-- The network oracle standing for the remote DataGraph API: Except.error m
    models fetch itself rejecting (transport failure) with message m. -/
def Network := HttpRequest → Except String HttpResponse

/-- One item of the content array of a tool result. -/
structure ContentItem where
  type : String
  text : String
deriving DecidableEq

/-- The envelope returned by the CallTool handler. -/
structure ToolResult where
  content : List ContentItem
  isError : Bool
deriving DecidableEq

/-- One message of a GetPrompt result. -/
structure PromptMessage where
  role : String
  content : ContentItem
deriving DecidableEq

/-- The envelope returned by the GetPrompt handler. -/
structure GetPromptResult where
  messages : List PromptMessage
deriving DecidableEq

/-- One entry of the contents array of a ReadResource result. -/
structure ResourceContent where
  uri : String
  mimeType : String
  text : String
deriving DecidableEq

/-- The envelope returned by the ReadResource handler. -/
structure ReadResourceResult where
  contents : List ResourceContent
deriving DecidableEq

/-- A tool descriptor of the TOOLS registry: name, the parameter names of its
    inputSchema.properties, and its inputSchema.required list.  The prose
    description strings carried alongside in the source are immaterial to every
    claim and are not repeated here. -/
structure ToolDescriptor where
  name : String
  paramNames : List String
  required : List String
deriving DecidableEq

/-- The static TOOLS registry of src/unnamed/part_001, in source order. -/
def TOOLS : List ToolDescriptor :=
  [⟨"get_server_info", [], []⟩,
   ⟨"get_locality_schema", ["locality"], ["locality"]⟩,
   ⟨"query_locality_data",
     ["query", "locality", "cypher_query", "cypher_params", "limit"], ["query"]⟩,
   ⟨"list_datasets", ["locality"], []⟩,
   ⟨"get_usage_stats", [], []⟩]

/-- The parameters the given tool's descriptor marks required. -/
def toolRequired (n : String) : List String :=
  match TOOLS.find? (fun t => t.name = n) with
  | some t => t.required
  | none => []

/-- The registered tool names, in registry order. -/
def toolNames : List String := TOOLS.map (fun t => t.name)

/-- One declared argument of a prompt descriptor. -/
structure PromptArg where
  name : String
  required : Bool
deriving DecidableEq

/-- A prompt descriptor of the PROMPTS registry. -/
structure PromptDescriptor where
  name : String
  args : List PromptArg
deriving DecidableEq

/-- The static PROMPTS registry of src/unnamed/part_001, in source order. -/
def PROMPTS : List PromptDescriptor :=
  [⟨"explore_locality_data", [⟨"locality", true⟩]⟩,
   ⟨"analyze_gosr_dataset", [⟨"dataset", true⟩, ⟨"focus", false⟩]⟩,
   ⟨"cypher_query_builder", [⟨"locality", true⟩, ⟨"user_question", true⟩]⟩]

/-- The registered prompt names, in registry order. -/
def promptNames : List String := PROMPTS.map (fun p => p.name)

/-- A resource descriptor of the RESOURCES registry. -/
structure ResourceDescriptor where
  uri : String
  name : String
  mimeType : String
deriving DecidableEq

/-- The static RESOURCES registry of src/unnamed/part_001, in source order. -/
def RESOURCES : List ResourceDescriptor :=
  [⟨"datagraph://cities/list", "Available Cities", "application/json"⟩,
   ⟨"datagraph://datasets/gosr", "GOSR Datasets", "application/json"⟩,
   ⟨"datagraph://schema/nyc", "NYC Graph Schema", "application/json"⟩,
   ⟨"datagraph://schema/kc", "Kansas City Graph Schema", "application/json"⟩,
   ⟨"datagraph://usage/stats", "API Usage Statistics", "application/json"⟩]

/-- The registered resource URIs, in registry order. -/
def resourceUris : List String := RESOURCES.map (fun r => r.uri)

/-- The ListTools handler: returns the full fixed registry on every call. -/
def listTools (_ : Unit) : List ToolDescriptor := TOOLS

/-- The ListPrompts handler: returns the full fixed registry on every call. -/
def listPrompts (_ : Unit) : List PromptDescriptor := PROMPTS

/-- The ListResources handler: returns the full fixed registry on every call. -/
def listResources (_ : Unit) : List ResourceDescriptor := RESOURCES

/-- Modelled from the spec: the package.json metadata read at process startup
    (the get server info tool "reads local package metadata"); package.json is
    not among the given repository files, so the name / version / description /
    homepage / repository values here are placeholders — no claim depends on
    them.  The gosr_framework object is transcribed from the source handler. -/
def serverInfoJson : Json :=
  Json.obj
    [("name", Json.str "datagraph-mcp-server"),
     ("version", Json.str "1.3.0"),
     ("description", Json.str "DataGraph MCP server"),
     ("homepage", Json.str "https://datagraph.city"),
     ("repository", Json.str "https://github.com/team-earth/datagraph-city-mcp-server"),
     ("gosr_framework", Json.obj
       [("spelling",
         Json.str "ALWAYS: Goal-Obstacles-Solutions-Resources (Goal singular, rest plural)"),
        ("goal", Json.str "A single aspirational future picture (singular)"),
        ("obstacles", Json.str "Barriers preventing the goal (plural)"),
        ("solutions",
         Json.str "POTENTIAL strategies to overcome obstacles if implemented (plural - NOT actual programs)"),
        ("resources", Json.str "ACTUAL programs/initiatives currently operating (plural)"),
        ("actors",
         Json.str "Organizations running the Resources (in model but not in GOSR acronym)")])]

/-- The missing-locality message thrown by query_locality_data and
    get_locality_schema. -/
def missingLocalityMsg : String :=
  "locality parameter is required. Call list_datasets to discover available locality codes."

/-- The V8-style TypeError message raised when destructuring the undefined
    arguments object; its exact wording is runtime detail no claim depends on. -/
def destructureMsg (p : String) : String :=
  "Cannot destructure property \x27" ++ p ++ "\x27 of \x27args\x27 as it is undefined."

/-- Stands for the rejection message of response.json() on a body that is not
    valid JSON; the exact wording depends on the body and no claim uses it. -/
def jsonParseMsg : String := "Unexpected end of JSON input"

/-- The TypeError raised by error.error when the parsed error body is null. -/
def nullErrorReadMsg : String :=
  "Cannot read properties of null (reading \x27error\x27)"

/-- The message thrown by query_locality_data on a non-2xx response with JSON
    body b: new Error(error.error or the fallback) — the error field when it is
    truthy, otherwise "Query failed". -/
def queryErrorMessage : Json → String
  | .null => nullErrorReadMsg
  | b =>
      match objField b "error" with
      | some e => if jsTruthy e then jsToString e else "Query failed"
      | none => "Query failed"

/-- The bearer Authorization header attached to every outbound call. -/
def authHeaders (cfg : Config) : List (String × String) :=
  [("Authorization", "Bearer " ++ cfg.apiKey)]

/-- The requestBody object of the query_locality_data handler: query, category
    and limit (defaulted to 10 when undefined) always, cypher_query only when
    truthy, cypher_params only when additionally itself truthy. -/
def mkQueryBody (a : Args) : QueryRequestBody :=
  { query := lookupArg a "query"
    category := lookupArg a "category"
    limit := (lookupArg a "limit").getD (Json.num 10)
    cypher_query :=
      if argTruthy (lookupArg a "cypher_query") then lookupArg a "cypher_query" else none
    cypher_params :=
      if argTruthy (lookupArg a "cypher_query") && argTruthy (lookupArg a "cypher_params")
      then lookupArg a "cypher_params" else none }

/-- The POST api/locality/query request of query_locality_data. -/
def mkQueryRequest (cfg : Config) (a : Args) : HttpRequest :=
  { method := "POST"
    url := cfg.apiUrl ++ "/api/" ++ jsTemplate (lookupArg a "locality") ++ "/query"
    headers := [("Authorization", "Bearer " ++ cfg.apiKey), ("Content-Type", "application/json")]
    body := some (mkQueryBody a) }

/-- The GET api/locality/schema request of get_locality_schema. -/
def mkSchemaRequest (cfg : Config) (a : Args) : HttpRequest :=
  { method := "GET"
    url := cfg.apiUrl ++ "/api/" ++ jsTemplate (lookupArg a "locality") ++ "/schema"
    headers := authHeaders cfg
    body := none }

/-- The GET datasets request of list_datasets, with the optional locality
    filter appended when the argument is truthy. -/
def mkDatasetsRequest (cfg : Config) (a : Args) : HttpRequest :=
  { method := "GET"
    url :=
      if argTruthy (lookupArg a "locality") then
        cfg.apiUrl ++ "/datasets?locality=" ++
          encodeURIComponent (jsTemplate (lookupArg a "locality"))
      else cfg.apiUrl ++ "/datasets"
    headers := authHeaders cfg
    body := none }

/-- The GET usage request of get_usage_stats. -/
def mkUsageRequest (cfg : Config) : HttpRequest :=
  { method := "GET", url := cfg.apiUrl ++ "/usage", headers := authHeaders cfg, body := none }

/-- The shared shape of the three GET tools: fetch, throw the fixed message on
    a non-2xx status without reading the body, otherwise parse the JSON body
    and wrap its 2-space pretty printing in one text content item. -/
def simpleGetCase (net : Network) (req : HttpRequest) (failMsg : String) :
    Except String ToolResult × List HttpRequest :=
  match net req with
  | .error m => (.error m, [req])
  | .ok resp =>
      if resp.ok then
        match resp.jsonBody with
        | none => (.error jsonParseMsg, [req])
        | some d => (.ok ⟨[⟨"text", stringifyPretty d⟩], false⟩, [req])
      else (.error failMsg, [req])

/-- The body of the CallTool handler's try block: dispatch on the tool name,
    returning the thrown message or the success envelope, together with the
    list of outbound HTTP calls actually made. -/
def callToolTry (cfg : Config) (net : Network) (name : String) (args : Option Args) :
    Except String ToolResult × List HttpRequest :=
  if name = "get_server_info" then
    (.ok ⟨[⟨"text", stringifyPretty serverInfoJson⟩], false⟩, [])
  else if name = "query_locality_data" then
    match args with
    | none => (.error (destructureMsg "query"), [])
    | some a =>
        if argTruthy (lookupArg a "locality") = false then
          (.error missingLocalityMsg, [])
        else
          let req := mkQueryRequest cfg a
          match net req with
          | .error m => (.error m, [req])
          | .ok resp =>
              if resp.ok then
                match resp.jsonBody with
                | none => (.error jsonParseMsg, [req])
                | some d => (.ok ⟨[⟨"text", stringifyPretty d⟩], false⟩, [req])
              else
                match resp.jsonBody with
                | none => (.error jsonParseMsg, [req])
                | some b => (.error (queryErrorMessage b), [req])
  else if name = "get_locality_schema" then
    match args with
    | none => (.error (destructureMsg "locality"), [])
    | some a =>
        if argTruthy (lookupArg a "locality") = false then
          (.error missingLocalityMsg, [])
        else simpleGetCase net (mkSchemaRequest cfg a) "Failed to fetch schema"
  else if name = "list_datasets" then
    match args with
    | none => (.error (destructureMsg "locality"), [])
    | some a => simpleGetCase net (mkDatasetsRequest cfg a) "Failed to list datasets"
  else if name = "get_usage_stats" then
    simpleGetCase net (mkUsageRequest cfg) "Failed to get usage stats"
  else (.error ("Unknown tool: " ++ name), [])

/-- The error envelope produced by the CallTool handler's catch block. -/
def errEnvelope (msg : String) : ToolResult :=
  ⟨[⟨"text", "Error: " ++ msg⟩], true⟩

/-- The CallTool handler: the try body with its catch block, which converts any
    thrown message into the error-flagged envelope.  The returned function is
    total — no exception escapes to the caller. -/
def callTool (cfg : Config) (net : Network) (name : String) (args : Option Args) :
    ToolResult × List HttpRequest :=
  match callToolTry cfg net name args with
  | (.ok r, calls) => (r, calls)
  | (.error m, calls) => (errEnvelope m, calls)

/-- The missing-locality message thrown by the explore_locality_data and
    cypher_query_builder prompts. -/
def missingPromptLocalityMsg : String :=
  "locality argument is required. Call list_datasets to discover available locality codes."

/-- args?.key — optional chaining through a possibly undefined arguments
    object. -/
def optLookup (args : Option Args) (k : String) : Option Json :=
  match args with
  | none => none
  | some a => lookupArg a k

/-- The fixed template of the explore_locality_data prompt. -/
def exploreText (l : String) : String :=
  "I want to explore urban data for " ++ l ++ ". Let\x27s start by:\n1. Listing available localities and their datasets\n2. Getting the graph schema for " ++ l ++ "\n3. Understanding what kinds of questions I can ask\n\nPlease guide me through this process."

/-- The fixed template of the analyze_gosr_dataset prompt. -/
def analyzeText (d f : String) : String :=
  "I want to analyze the \"" ++ d ++ "\" GOSR dataset, focusing on: " ++ f ++ ".\n\nPlease help me:\n1. List available GOSR datasets to confirm this one exists\n2. Get the schema to understand the data structure\n3. Query for relevant Goals, Obstacles, Solutions, and Resources\n4. Summarize key insights and patterns\n\nUse the GOSR framework (gosr.ai) to structure the analysis."

/-- The fixed template of the cypher_query_builder prompt. -/
def cypherBuilderText (l q : String) : String :=
  "I want to query " ++ l ++ " data to answer: \"" ++ q ++ "\"\n\nPlease help me:\n1. Get the graph schema for " ++ l ++ "\n2. Understand what node labels and relationships are available\n3. Generate an appropriate Cypher query based on my question\n4. Execute the query and interpret the results\n\nRemember to include LIMIT clauses and ensure read-only operations."

/-- A GetPrompt result holding exactly one user-role text message. -/
def userTextMessage (t : String) : GetPromptResult :=
  ⟨[⟨"user", ⟨"text", t⟩⟩]⟩

/-- The GetPrompt handler.  It has no try/catch: every failure (unknown prompt
    name, missing required argument) is a thrown Error, modelled as
    Except.error, which propagates to the caller. -/
def getPrompt (name : String) (args : Option Args) : Except String GetPromptResult :=
  if name = "explore_locality_data" then
    let locality := optLookup args "locality"
    if argTruthy locality = false then .error missingPromptLocalityMsg
    else .ok (userTextMessage (exploreText (jsTemplate locality)))
  else if name = "analyze_gosr_dataset" then
    let dataset := optLookup args "dataset"
    let focus :=
      if argTruthy (optLookup args "focus") then jsTemplate (optLookup args "focus")
      else "general overview"
    if argTruthy dataset = false then .error "dataset argument is required"
    else .ok (userTextMessage (analyzeText (jsTemplate dataset) focus))
  else if name = "cypher_query_builder" then
    let locality := optLookup args "locality"
    let user_question := optLookup args "user_question"
    if argTruthy locality = false then .error missingPromptLocalityMsg
    else if argTruthy user_question = false then .error "user_question argument is required"
    else .ok (userTextMessage (cypherBuilderText (jsTemplate locality) (jsTemplate user_question)))
  else .error ("Unknown prompt: " ++ name)

/-- uri.split on the slash, then pop: the final path component, used as the
    locality code of a schema resource. -/
def localityOfUri (uri : String) : String :=
  (uri.splitOn "/").getLastD ""

/-- A ReadResource result: one contents entry echoing the uri, tagged
    application/json, carrying the pretty-printed body. -/
def resourceOk (uri : String) (b : Json) : ReadResourceResult :=
  ⟨[⟨uri, "application/json", stringifyPretty b⟩]⟩

/-- The shared shape of every resource read: fetch, throw the fixed message on
    a non-2xx status, otherwise parse and pretty-print the JSON body. -/
def resourceFetchCase (net : Network) (uri : String) (req : HttpRequest) (failMsg : String) :
    Except String ReadResourceResult :=
  match net req with
  | .error m => .error m
  | .ok resp =>
      if resp.ok then
        match resp.jsonBody with
        | none => .error jsonParseMsg
        | some b => .ok (resourceOk uri b)
      else .error failMsg

/-- The body of the ReadResource handler's try block: dispatch on the uri. -/
def readResourceTry (cfg : Config) (net : Network) (uri : String) :
    Except String ReadResourceResult :=
  if uri = "datagraph://cities/list" then
    resourceFetchCase net uri ⟨"GET", cfg.apiUrl ++ "/cities", authHeaders cfg, none⟩
      "Failed to fetch cities"
  else if uri = "datagraph://datasets/gosr" then
    resourceFetchCase net uri ⟨"GET", cfg.apiUrl ++ "/datasets", authHeaders cfg, none⟩
      "Failed to fetch datasets"
  else if uri = "datagraph://schema/nyc" || uri = "datagraph://schema/kc" then
    resourceFetchCase net uri
      ⟨"GET", cfg.apiUrl ++ "/api/" ++ localityOfUri uri ++ "/schema", authHeaders cfg, none⟩
      ("Failed to fetch schema for " ++ localityOfUri uri)
  else if uri = "datagraph://usage/stats" then
    resourceFetchCase net uri ⟨"GET", cfg.apiUrl ++ "/usage", authHeaders cfg, none⟩
      "Failed to fetch usage stats"
  else .error ("Unknown resource: " ++ uri)

/-- The ReadResource handler: the try body with its catch block, which does NOT
    produce an envelope but re-throws, wrapping the message with the requested
    uri.  Except.error models the exception reaching the transport layer. -/
def readResource (cfg : Config) (net : Network) (uri : String) :
    Except String ReadResourceResult :=
  match readResourceTry cfg net uri with
  | .ok r => .ok r
  | .error m => .error ("Failed to read resource " ++ uri ++ ": " ++ m)

/-- Whether an outcome is a thrown (propagating) exception. -/
def isThrown {α : Type} : Except String α → Bool
  | .error _ => true
  | .ok _ => false


/-- A concrete configuration used by witnesses and counterexamples: the default
    base URL and an arbitrary key. -/
def cfg0 : Config := ⟨"key0", "https://api.datagraph.city"⟩

/-- The stubbed success body: results [1, 2, 3]. -/
def body1 : Json :=
  Json.obj [("results", Json.arr [Json.num 1, Json.num 2, Json.num 3])]

/-- A stubbed remote API answering every request with HTTP 200 and body1. -/
def netOk : Network := fun _ => .ok ⟨true, some body1⟩

/-- A stubbed remote API answering every request with a non-2xx status and the
    body with an error field "boom". -/
def net404 : Network := fun _ =>
  .ok ⟨false, some (Json.obj [("error", Json.str "boom")])⟩

/-- Arguments supplying only a locality; the query parameter, which the
    descriptor marks required, is omitted. -/
def args0 : Args := [("locality", Json.str "nyc")]

/-- Valid arguments for the query tool: both query and locality present. -/
def args1 : Args := [("query", Json.str "find programs"), ("locality", Json.str "nyc")]

/-- Arguments with an empty-string cypher_query next to a cypher_params
    object. -/
def args2 : Args :=
  [("query", Json.str "q"), ("cypher_query", Json.str ""),
   ("cypher_params", Json.obj [("borough", Json.str "M")])]

/-- Arguments with a truthy cypher_query and a cypher_params object. -/
def args3 : Args :=
  [("query", Json.str "q"), ("cypher_query", Json.str "MATCH (n) RETURN n LIMIT 5"),
   ("cypher_params", Json.obj [("borough", Json.str "M")])]

/-- C1 (counterexample): the query parameter is marked required in the
    query_locality_data descriptor and is absent from the argument mapping, yet
    the invocation performs one outbound network call (the network-call count is
    1, not 0) and does not fail with a missing-argument error. -/
theorem c1_counterexample :
    "query" ∈ toolRequired "query_locality_data" ∧
    lookupArg args0 "query" = none ∧
    (callTool cfg0 netOk "query_locality_data" (some args0)).2.length = 1 ∧
    (callTool cfg0 netOk "query_locality_data" (some args0)).1.isError = false :=
  ⟨by decide, rfl, rfl, rfl⟩

/-- C1 (amended): the local required-argument check covers only the locality
    argument: when locality is absent or falsy, query_locality_data and
    get_locality_schema fail with the missing-argument error and make no
    network call; when locality is supplied, omitting the query parameter — the
    one the descriptor marks required — does not prevent the single outbound
    call. -/
theorem c1_locality_only_checked (cfg : Config) (net : Network) (a : Args) :
    (argTruthy (lookupArg a "locality") = false →
      callTool cfg net "query_locality_data" (some a) = (errEnvelope missingLocalityMsg, []) ∧
      callTool cfg net "get_locality_schema" (some a) = (errEnvelope missingLocalityMsg, [])) ∧
    (argTruthy (lookupArg a "locality") = true →
      lookupArg a "query" = none →
      (callTool cfg net "query_locality_data" (some a)).2 = [mkQueryRequest cfg a]) := by
  constructor
  · intro h
    constructor
    · simp [callTool, callToolTry, h]
    · simp [callTool, callToolTry, h]
  · intro h _
    simp only [callTool, callToolTry, h]
    cases hnet : net (mkQueryRequest cfg a) with
    | error m => simp [hnet]
    | ok resp =>
        cases hok : resp.ok <;> cases hj : resp.jsonBody <;> simp [hnet, hok, hj]

/-- C1 (witness for the amended theorem): with no arguments the locality check
    fires and no call is made; with args0 (locality only, query omitted) the
    single query call is made. -/
theorem c1_locality_only_checked_witness :
    callTool cfg0 netOk "query_locality_data" (some ([] : Args)) =
      (errEnvelope missingLocalityMsg, []) ∧
    (callTool cfg0 netOk "query_locality_data" (some args0)).2 = [mkQueryRequest cfg0 args0] :=
  ⟨((c1_locality_only_checked cfg0 netOk []).1 rfl).1,
   (c1_locality_only_checked cfg0 netOk args0).2 rfl rfl⟩

/-- C2 (counterexample): an unknown prompt name makes the GetPrompt handler
    throw — the exception propagates to the caller (isThrown) instead of being
    converted into a non-exceptional envelope with an error flag. -/
theorem c2_counterexample :
    getPrompt "nonexistent" none = .error "Unknown prompt: nonexistent" ∧
    isThrown (getPrompt "nonexistent" none) = true :=
  ⟨rfl, rfl⟩

/-- C2 (amended): every prompt-expansion failure (unknown prompt name, missing
    required argument) propagates as a thrown error from the GetPrompt handler
    — which has no catch block — rather than being returned as an error-flagged
    envelope; only the CallTool handler performs that conversion. -/
theorem c2_prompt_failures_thrown (name : String) (args : Option Args) :
    (name ∉ promptNames → getPrompt name args = .error ("Unknown prompt: " ++ name)) ∧
    (argTruthy (optLookup args "locality") = false →
      getPrompt "explore_locality_data" args = .error missingPromptLocalityMsg ∧
      getPrompt "cypher_query_builder" args = .error missingPromptLocalityMsg) ∧
    (argTruthy (optLookup args "dataset") = false →
      getPrompt "analyze_gosr_dataset" args = .error "dataset argument is required") ∧
    (argTruthy (optLookup args "locality") = true →
      argTruthy (optLookup args "user_question") = false →
      getPrompt "cypher_query_builder" args = .error "user_question argument is required") := by
  refine ⟨?_, ?_, ?_, ?_⟩
  · intro h
    simp [promptNames, PROMPTS] at h
    obtain ⟨h1, h2, h3⟩ := h
    simp [getPrompt, h1, h2, h3]
  · intro h
    exact ⟨by simp [getPrompt, h], by simp [getPrompt, h]⟩
  · intro h
    simp [getPrompt, h]
  · intro h1 h2
    simp [getPrompt, h1, h2]

/-- C2 (witness for the amended theorem): each failure kind at a concrete
    input. -/
theorem c2_prompt_failures_thrown_witness :
    getPrompt "zzz" none = .error "Unknown prompt: zzz" ∧
    getPrompt "explore_locality_data" none = .error missingPromptLocalityMsg ∧
    getPrompt "analyze_gosr_dataset" none = .error "dataset argument is required" ∧
    getPrompt "cypher_query_builder" (some [("locality", Json.str "nyc")]) =
      .error "user_question argument is required" :=
  ⟨(c2_prompt_failures_thrown "zzz" none).1 (by decide),
   ((c2_prompt_failures_thrown "explore_locality_data" none).2.1 rfl).1,
   (c2_prompt_failures_thrown "analyze_gosr_dataset" none).2.2.1 rfl,
   (c2_prompt_failures_thrown "cypher_query_builder"
     (some [("locality", Json.str "nyc")])).2.2.2 rfl rfl⟩

/-- C3 (counterexample): on a non-2xx response whose body carries the error
    field "boom", get_locality_schema fails with its generic fixed message, not
    with the parsed error message. -/
theorem c3_counterexample :
    net404 (mkSchemaRequest cfg0 args1) =
      .ok ⟨false, some (Json.obj [("error", Json.str "boom")])⟩ ∧
    (callTool cfg0 net404 "get_locality_schema" (some args1)).1 =
      errEnvelope "Failed to fetch schema" ∧
    (callTool cfg0 net404 "get_locality_schema" (some args1)).1 ≠ errEnvelope "boom" :=
  ⟨rfl, rfl, by decide⟩

/-- C3 (amended): only query_locality_data parses the error field of a non-2xx
    response body (falling back to "Query failed" when the field is absent or
    falsy); get_locality_schema, list_datasets and get_usage_stats fail with
    their fixed generic messages without reading the response body. -/
theorem c3_error_parsing_query_only (cfg : Config) (net : Network) (a : Args)
    (resp : HttpResponse) (b : Json)
    (hloc : argTruthy (lookupArg a "locality") = true)
    (hok : resp.ok = false) (hbody : resp.jsonBody = some b) :
    (net (mkQueryRequest cfg a) = .ok resp →
      callTool cfg net "query_locality_data" (some a) =
        (errEnvelope (queryErrorMessage b), [mkQueryRequest cfg a])) ∧
    (net (mkSchemaRequest cfg a) = .ok resp →
      callTool cfg net "get_locality_schema" (some a) =
        (errEnvelope "Failed to fetch schema", [mkSchemaRequest cfg a])) ∧
    (net (mkDatasetsRequest cfg a) = .ok resp →
      callTool cfg net "list_datasets" (some a) =
        (errEnvelope "Failed to list datasets", [mkDatasetsRequest cfg a])) ∧
    (net (mkUsageRequest cfg) = .ok resp →
      callTool cfg net "get_usage_stats" (some a) =
        (errEnvelope "Failed to get usage stats", [mkUsageRequest cfg])) ∧
    (∀ m : String, m ≠ "" →
      queryErrorMessage (Json.obj [("error", Json.str m)]) = m) ∧
    queryErrorMessage (Json.obj []) = "Query failed" := by
  refine ⟨?_, ?_, ?_, ?_, ?_, rfl⟩
  · intro hnet
    simp [callTool, callToolTry, hloc, hnet, hok, hbody]
  · intro hnet
    simp [callTool, callToolTry, simpleGetCase, hloc, hnet, hok]
  · intro hnet
    simp [callTool, callToolTry, simpleGetCase, hnet, hok]
  · intro hnet
    simp [callTool, callToolTry, simpleGetCase, hnet, hok]
  · intro m hm
    simp [queryErrorMessage, objField, lookupArg, jsTruthy, jsToString, hm]

/-- C3 (witness for the amended theorem): with the stubbed 404 API,
    query_locality_data surfaces "boom" while get_locality_schema keeps its
    generic message. -/
theorem c3_error_parsing_query_only_witness :
    callTool cfg0 net404 "query_locality_data" (some args1) =
      (errEnvelope "boom", [mkQueryRequest cfg0 args1]) ∧
    callTool cfg0 net404 "get_locality_schema" (some args1) =
      (errEnvelope "Failed to fetch schema", [mkSchemaRequest cfg0 args1]) := by
  have h := c3_error_parsing_query_only cfg0 net404 args1
    ⟨false, some (Json.obj [("error", Json.str "boom")])⟩
    (Json.obj [("error", Json.str "boom")]) rfl rfl rfl
  exact ⟨h.1 rfl, h.2.1 rfl⟩

/-- C4 (confirmed): every message thrown inside the CallTool handler's try body
    — whatever the failure kind — is converted by the catch block into a
    successful envelope with exactly one text content item whose text begins
    with "Error: " and the isError flag set; the handler itself is a total
    function, so no exception escapes to the caller. -/
theorem c4_uniform_failure_envelope (cfg : Config) (net : Network) (name : String)
    (args : Option Args) (msg : String) (calls : List HttpRequest)
    (h : callToolTry cfg net name args = (.error msg, calls)) :
    callTool cfg net name args = (⟨[⟨"text", "Error: " ++ msg⟩], true⟩, calls) := by
  simp [callTool, errEnvelope, h]

/-- C4 (witness): the unknown-tool failure at a concrete input is shaped into
    the error envelope. -/
theorem c4_uniform_failure_envelope_witness :
    callTool cfg0 netOk "bogus" none = (⟨[⟨"text", "Error: Unknown tool: bogus"⟩], true⟩, []) :=
  c4_uniform_failure_envelope cfg0 netOk "bogus" none "Unknown tool: bogus" [] rfl

/-- C5 (confirmed): invoking any name outside the static tool registry returns
    the error-flagged envelope whose text is "Error: Unknown tool: <name>" for
    that exact name, with no network call. -/
theorem c5_unknown_tool (cfg : Config) (net : Network) (name : String) (args : Option Args)
    (h : name ∉ toolNames) :
    callTool cfg net name args = (errEnvelope ("Unknown tool: " ++ name), []) := by
  simp [toolNames, TOOLS] at h
  obtain ⟨h1, h2, h3, h4, h5⟩ := h
  simp [callTool, callToolTry, h1, h2, h3, h4, h5]

/-- C5 (witness): a concrete unregistered name. -/
theorem c5_unknown_tool_witness :
    callTool cfg0 netOk "made_up_tool" none =
      (errEnvelope ("Unknown tool: " ++ "made_up_tool"), []) :=
  c5_unknown_tool cfg0 netOk "made_up_tool" none (by decide)

/-- C6 (confirmed): with a truthy locality, a 2xx response with JSON body b
    makes query_locality_data return exactly one text content item whose text
    is the 2-space pretty-printed serialization of b, after exactly one
    outbound call. -/
theorem c6_success_pretty_json (cfg : Config) (net : Network) (a : Args) (b : Json)
    (hloc : argTruthy (lookupArg a "locality") = true)
    (hnet : net (mkQueryRequest cfg a) = .ok ⟨true, some b⟩) :
    callTool cfg net "query_locality_data" (some a) =
      (⟨[⟨"text", stringifyPretty b⟩], false⟩, [mkQueryRequest cfg a]) := by
  simp [callTool, callToolTry, hloc, hnet]

/-- C6 (witness): the stubbed 200 response with body results [1,2,3] yields
    exactly its pretty-printed JSON text. -/
theorem c6_success_pretty_json_witness :
    callTool cfg0 netOk "query_locality_data" (some args1) =
      (⟨[⟨"text", "\x7b\n  \"results\": [\n    1,\n    2,\n    3\n  ]\n\x7d"⟩], false⟩,
       [mkQueryRequest cfg0 args1]) :=
  c6_success_pretty_json cfg0 netOk args1 body1 rfl rfl

/-- C7 (confirmed): a URI outside the resource registry fails with the
    unknown-resource error, and every ReadResource failure propagates as a
    thrown error (Except.error, not an isError envelope) whose message names
    the requested URI. -/
theorem c7_resource_error_propagation (cfg : Config) (net : Network) (uri : String) :
    (uri ∉ resourceUris →
      readResource cfg net uri =
        .error ("Failed to read resource " ++ uri ++ ": " ++ ("Unknown resource: " ++ uri))) ∧
    (∀ msg, readResource cfg net uri = .error msg →
      ∃ inner, msg = "Failed to read resource " ++ uri ++ ": " ++ inner) := by
  constructor
  · intro h
    simp [resourceUris, RESOURCES] at h
    obtain ⟨h1, h2, h3, h4, h5⟩ := h
    simp [readResource, readResourceTry, h1, h2, h3, h4, h5]
  · intro msg h
    unfold readResource at h
    cases htry : readResourceTry cfg net uri with
    | ok r => rw [htry] at h; exact absurd h (by simp)
    | error m =>
        rw [htry] at h
        simp at h
        exact ⟨m, h.symm⟩

/-- C7 (witness): a concrete unregistered URI. -/
theorem c7_resource_error_propagation_witness :
    readResource cfg0 netOk "datagraph://bogus" =
      .error ("Failed to read resource " ++ "datagraph://bogus" ++ ": " ++
        ("Unknown resource: " ++ "datagraph://bogus")) ∧
    ∃ inner,
      ("Failed to read resource " ++ "datagraph://bogus" ++ ": " ++
        ("Unknown resource: " ++ "datagraph://bogus")) =
        "Failed to read resource " ++ "datagraph://bogus" ++ ": " ++ inner := by
  have h := c7_resource_error_propagation cfg0 netOk "datagraph://bogus"
  exact ⟨h.1 (by decide), h.2 _ (h.1 (by decide))⟩

/-- C8 (confirmed): each registered prompt, requested with its required
    arguments present (non-empty strings) and every optional argument omitted,
    yields exactly one user-role text message matching the fixed template, with
    the omitted optional focus argument of analyze_gosr_dataset replaced by the
    default "general overview". -/
theorem c8_prompt_defaults (l d q : String) (hl : l ≠ "") (hd : d ≠ "") (hq : q ≠ "") :
    getPrompt "explore_locality_data" (some [("locality", Json.str l)]) =
      .ok ⟨[⟨"user", ⟨"text", exploreText l⟩⟩]⟩ ∧
    getPrompt "analyze_gosr_dataset" (some [("dataset", Json.str d)]) =
      .ok ⟨[⟨"user", ⟨"text", analyzeText d "general overview"⟩⟩]⟩ ∧
    getPrompt "cypher_query_builder"
        (some [("locality", Json.str l), ("user_question", Json.str q)]) =
      .ok ⟨[⟨"user", ⟨"text", cypherBuilderText l q⟩⟩]⟩ := by
  refine ⟨?_, ?_, ?_⟩ <;>
    simp [getPrompt, optLookup, lookupArg, argTruthy, jsTruthy, jsTemplate, jsToString,
      userTextMessage, hl, hd, hq]

/-- C8 (witness): concrete prompt requests with required arguments only. -/
theorem c8_prompt_defaults_witness :
    getPrompt "analyze_gosr_dataset" (some [("dataset", Json.str "Un-Lonely NYC")]) =
      .ok ⟨[⟨"user", ⟨"text", analyzeText "Un-Lonely NYC" "general overview"⟩⟩]⟩ ∧
    getPrompt "explore_locality_data" (some [("locality", Json.str "nyc")]) =
      .ok ⟨[⟨"user", ⟨"text", exploreText "nyc"⟩⟩]⟩ := by
  have h := c8_prompt_defaults "nyc" "Un-Lonely NYC" "how" (by decide) (by decide) (by decide)
  exact ⟨h.2.1, h.1⟩

/-- C9 (confirmed): the three list handlers are constant functions of no state:
    any two calls agree, every call returns the full fixed registry, and the
    descriptor sequences keep their source order, unfiltered and unpaginated. -/
theorem c9_list_idempotent_order_stable :
    (∀ u v : Unit,
      listTools u = listTools v ∧ listPrompts u = listPrompts v ∧
        listResources u = listResources v) ∧
    (∀ u : Unit,
      listTools u = TOOLS ∧ listPrompts u = PROMPTS ∧ listResources u = RESOURCES) ∧
    (listTools ()).map (fun t => t.name) =
      ["get_server_info", "get_locality_schema", "query_locality_data", "list_datasets",
       "get_usage_stats"] ∧
    (listPrompts ()).map (fun p => p.name) =
      ["explore_locality_data", "analyze_gosr_dataset", "cypher_query_builder"] ∧
    (listResources ()).map (fun r => r.uri) =
      ["datagraph://cities/list", "datagraph://datasets/gosr", "datagraph://schema/nyc",
       "datagraph://schema/kc", "datagraph://usage/stats"] :=
  ⟨fun _ _ => ⟨rfl, rfl, rfl⟩, fun _ => ⟨rfl, rfl, rfl⟩, rfl, rfl, rfl⟩

/-- C10 (confirmed): the outbound query body carries the cypher_query and
    cypher_params keys only under the truthiness guards — a falsy (absent or
    empty-string) cypher_query omits both — while query, category and limit
    (defaulted to 10 when undefined) are forwarded verbatim, with no
    clamping. -/
theorem c10_cypher_body_guard (cfg : Config) (a : Args) :
    (mkQueryRequest cfg a).body = some (mkQueryBody a) ∧
    (argTruthy (lookupArg a "cypher_query") = false →
      (mkQueryBody a).cypher_query = none ∧ (mkQueryBody a).cypher_params = none) ∧
    ((mkQueryBody a).cypher_params.isSome = true →
      argTruthy (lookupArg a "cypher_query") = true ∧
      argTruthy (lookupArg a "cypher_params") = true) ∧
    (mkQueryBody a).query = lookupArg a "query" ∧
    (mkQueryBody a).category = lookupArg a "category" ∧
    (mkQueryBody a).limit = (lookupArg a "limit").getD (Json.num 10) := by
  refine ⟨rfl, ?_, ?_, rfl, rfl, rfl⟩
  · intro h
    simp [mkQueryBody, h]
  · intro h
    cases h1 : argTruthy (lookupArg a "cypher_query") <;>
      cases h2 : argTruthy (lookupArg a "cypher_params") <;>
      simp [mkQueryBody, h1, h2] at h ⊢

/-- C10 (witness): an empty-string cypher_query next to a cypher_params object
    omits both keys; a truthy cypher_query with params satisfies both
    guards. -/
theorem c10_cypher_body_guard_witness :
    (mkQueryBody args2).cypher_query = none ∧ (mkQueryBody args2).cypher_params = none ∧
    (argTruthy (lookupArg args3 "cypher_query") = true ∧
      argTruthy (lookupArg args3 "cypher_params") = true) := by
  have h2 := (c10_cypher_body_guard cfg0 args2).2.1 rfl
  have h3 := (c10_cypher_body_guard cfg0 args3).2.2.1 rfl
  exact ⟨h2.1, h2.2, h3⟩

end Datagraph
